import Mathlib

/-!
Shallow embedding of the crawl4ai-mcp repository
(src/crawl4ai_mcp/{types,config,server,main}.py) and proofs about its
result-normalization function, tool entry points and CLI dispatch.

Conventions of the embedding:
- Python optional strings become Option String; Python truthiness of an
  optional string (None and the empty string are falsy) is the Bool
  function strTruthy.
- The external collaborator result type RunManyReturn becomes an inductive
  with three cases: a single outcome object, a container holding an ordered
  list of outcome objects, and any other runtime value carried as its type
  name (the code only uses the type name, for diagnostics).
- Code that can raise returns Except String; the String is the exception
  message. Indexing an empty container raises IndexError, whose message is
  the fixed Python string.
- The process-wide settings object is passed as an explicit argument.
-/

/-- Python truthiness of an optional string: None and the empty string are falsy. -/
def strTruthy : Option String → Bool
  | none => false
  | some s => s ≠ ""

/-- Python `a or b` on two optional strings: yields a when a is truthy, else b. -/
def pyOrStr (a b : Option String) : Option String :=
  if strTruthy a then a else b

/-- Python `a or b` where b is a plain string fallback: yields the contents of a
when a is truthy, else b. -/
def strOr (a : Option String) (b : String) : String :=
  match a with
  | none => b
  | some s => if s = "" then b else s

/-- Embedding of crawl4ai_mcp.config.Settings with its field defaults. -/
structure Settings where
  browser_type : String := "chromium"
  headless : Bool := true
  verbose : Bool := false
  screenshot : Bool := false
  word_count_threshold : Nat := 10
  cache_mode : String := "bypass"
  max_depth : Nat := 2
  max_pages : Nat := 50
  include_external : Bool := false
  content_type : String := "markdown"
  deriving Repr, DecidableEq

/-- Embedding of the structured markdown object exposed by an outcome:
a fit variant and a raw variant, each an optional string. -/
structure Markdown where
  fit_markdown : Option String := none
  raw_markdown : Option String := none
  deriving Repr, DecidableEq

/-- Embedding of the fields of the collaborator CrawlResult that the
normalizer reads: success flag, url, optional raw HTML body, optional
markdown object, optional extracted content, optional error message. -/
structure CrawlResult where
  success : Bool
  url : String
  html : Option String := none
  markdown : Option Markdown := none
  extracted_content : Option String := none
  error_message : Option String := none
  deriving Repr, DecidableEq

/-- Embedding of the collaborator return value RunManyReturn as classified by
the isinstance checks in handle_crawl_result: a single outcome object, a
container of outcome objects, or an unrelated value carried as its runtime
type name. -/
inductive RunManyReturn where
  | outcome (r : CrawlResult)
  | container (rs : List CrawlResult)
  | other (typeName : String)
  deriving Repr, DecidableEq

/-- Embedding of crawl4ai_mcp.types.MCPCrawlResult. -/
structure MCPCrawlResult where
  status : String
  url : Option String := none
  content : Option String := none
  error_message : Option String := none
  deriving Repr, DecidableEq

/-- Branches of handle_crawl_result that run after the container unwrap and
the CrawlResult isinstance check, mirroring the if/elif chain of
server.py lines 34-58. -/
def handleOutcome (settings : Settings) (result : CrawlResult) : MCPCrawlResult :=
  if result.success = true ∧ settings.content_type = "html" then
    { status := "success", url := some result.url, content := result.html }
  else if result.success = true ∧ result.markdown.isSome = true then
    -- output_content starts as the extracted content coalesced to ""
    if result.extracted_content.getD "" = "" ∧ result.markdown.isSome = true then
      { status := "success", url := some result.url,
        content := pyOrStr (result.markdown.getD {}).fit_markdown
          (result.markdown.getD {}).raw_markdown }
    else
      { status := "error",
        error_message := some "The crawler failed to extract any valid content." }
  else
    { status := "error",
      error_message := some (strOr result.error_message "Unknown crawl error.") }

/-- Embedding of handle_crawl_result (server.py lines 25-58). A container is
unwrapped to its first element; indexing an empty container raises
IndexError, modelled as Except.error with the Python message. A value that
is not a CrawlResult yields the diagnostic error result naming its type. -/
def handle_crawl_result (settings : Settings) :
    RunManyReturn → Except String MCPCrawlResult
  | .container [] => .error "list index out of range"
  | .container (r :: _) => .ok (handleOutcome settings r)
  | .outcome r => .ok (handleOutcome settings r)
  | .other typeName =>
      .ok { status := "error",
            error_message :=
              some ("Unexpected result type from crawler: " ++ typeName) }

/-- Response of the collaborator call (arun or arun_many) as the entry points
classify it: the call itself raised, it returned a value that is not an
asynchronous iterator (carried as its type name), or it returned a stream
that yields a list of elements and then optionally raises with a message. -/
inductive CrawlerResponse where
  | raises (msg : String)
  | nonIterator (typeName : String)
  | stream (items : List RunManyReturn) (err : Option String)
  deriving Repr, DecidableEq

/-- Error result built when the collaborator return value fails the
AsyncIterator isinstance check, with the message shared verbatim by
deep_crawl and crawl in the source. -/
def arunTypeError (typeName : String) : MCPCrawlResult :=
  { status := "error",
    error_message :=
      some ("Expected an AsyncIterator instance from arun, got: " ++ typeName) }

/-- Consumption loop shared in shape by deep_crawl and crawl: normalize each
yielded element and append; if normalization raises or the stream raises
after its last element, append one error result built by wrapErr and stop. -/
def consumeStream (settings : Settings) (wrapErr : String → MCPCrawlResult) :
    List RunManyReturn → Option String → List MCPCrawlResult → List MCPCrawlResult
  | [], none, acc => acc.reverse
  | [], some m, acc => (wrapErr m :: acc).reverse
  | x :: xs, err, acc =>
      match handle_crawl_result settings x with
      | .ok r => consumeStream settings wrapErr xs err (r :: acc)
      | .error m => (wrapErr m :: acc).reverse

/-- Error result produced by the except branch of crawl (server.py line 239). -/
def crawlErr (msg : String) : MCPCrawlResult :=
  { status := "error",
    error_message := some ("An unexpected error occurred during crawl: " ++ msg) }

/-- Embedding of the crawl entry point (server.py lines 189-247) as a function
of the collaborator response: catch a raising call into one error result,
reject a non-iterator value, otherwise consume the stream. -/
def crawl (settings : Settings) (resp : CrawlerResponse) : List MCPCrawlResult :=
  match resp with
  | .raises m => [crawlErr m]
  | .nonIterator t => [arunTypeError t]
  | .stream items err => consumeStream settings crawlErr items err []

/-- Error result produced by the except branch of deep_crawl (server.py line 175). -/
def deepCrawlErr (msg : String) : MCPCrawlResult :=
  { status := "error",
    error_message := some ("An error occurred during deep crawl: " ++ msg) }

/-- Observable outcome of one deep_crawl invocation: the returned result list
and the number of times the manually acquired crawler session was closed. -/
structure DeepCrawlRun where
  results : List MCPCrawlResult
  closeCalls : Nat
  deriving Repr, DecidableEq

/-- Embedding of the deep_crawl entry point (server.py lines 111-185). The try
body either returns early on a non-iterator value, consumes the stream, or
is caught by the except branch; the finally block closes the session exactly
once after the body, on every path. -/
def deep_crawl (settings : Settings) (resp : CrawlerResponse) : DeepCrawlRun :=
  let results :=
    match resp with
    | .raises m => [deepCrawlErr m]
    | .nonIterator t => [arunTypeError t]
    | .stream items err => consumeStream settings deepCrawlErr items err []
  { results := results, closeCalls := 1 }

/-- Choices accepted by the click option --transport in main.py. -/
def transportChoices : List String := ["stdio", "html"]

/-- Click-level parsing of the --transport option: absent means the default
stdio, a given value must be one of the declared choices. -/
def parseTransportOption : Option String → Option String
  | none => some "stdio"
  | some t => if t ∈ transportChoices then some t else none

/-- Dispatch of main.py lines 16-19: the transport string the server is run
with, as a function of the parsed option value. -/
def mainRun (transport : String) : String :=
  if transport = "http" then "streamable-http" else "stdio"

/-- Shape invariant of NormalizedResult as the spec states it: on success,
url and content present and error message absent; on error, url and content
absent and error message present. -/
def shapeInvariant (r : MCPCrawlResult) : Bool :=
  (if r.status = "success" then
    r.url.isSome && r.content.isSome && r.error_message.isNone
   else true) &&
  (if r.status = "error" then
    r.url.isNone && r.content.isNone && r.error_message.isSome
   else true)

/-- Weakened shape invariant: on success, url is present and error message
absent but content may be absent; on error, url and content absent and
error message present. -/
def shapeInvariantAmended (r : MCPCrawlResult) : Bool :=
  (if r.status = "success" then r.url.isSome && r.error_message.isNone
   else true) &&
  (if r.status = "error" then
    r.url.isNone && r.content.isNone && r.error_message.isSome
   else true)

/-- Well-formedness of a NormalizedResult: its status is one of the two
admissible literals. -/
def isWellFormed (r : MCPCrawlResult) : Bool :=
  r.status = "success" || r.status = "error"

theorem strTruthy_true_getD {a : Option String} (h : strTruthy a = true) :
    a.getD "" ≠ "" := by
  cases a with
  | none => simp [strTruthy] at h
  | some s => simpa [strTruthy] using h

theorem strTruthy_false_getD {a : Option String} (h : strTruthy a = false) :
    a.getD "" = "" := by
  cases a with
  | none => rfl
  | some s => simpa [strTruthy] using h

theorem isWellFormed_handleOutcome (settings : Settings) (r : CrawlResult) :
    isWellFormed (handleOutcome settings r) = true := by
  unfold handleOutcome
  split
  · rfl
  split
  · split
    · rfl
    · rfl
  · rfl

theorem shapeInvariantAmended_handleOutcome (settings : Settings) (r : CrawlResult) :
    shapeInvariantAmended (handleOutcome settings r) = true := by
  unfold handleOutcome
  split
  · simp [shapeInvariantAmended]
  split
  · split
    · simp [shapeInvariantAmended]
    · simp [shapeInvariantAmended]
  · simp [shapeInvariantAmended]


theorem consumeStream_append (settings : Settings)
    (wrapErr : String → MCPCrawlResult)
    (items : List RunManyReturn) (rs : List MCPCrawlResult) (m : String)
    (h : items.map (handle_crawl_result settings) = rs.map Except.ok) :
    ∀ acc, consumeStream settings wrapErr items (some m) acc =
      acc.reverse ++ rs ++ [wrapErr m] := by
  induction items generalizing rs with
  | nil =>
    cases rs with
    | nil => intro acc; simp [consumeStream]
    | cons r rs => simp at h
  | cons x xs ih =>
    cases rs with
    | nil => simp at h
    | cons r rs =>
      simp only [List.map_cons, List.cons.injEq] at h
      obtain ⟨hx, hxs⟩ := h
      intro acc
      simp only [consumeStream, hx]
      rw [ih rs hxs (r :: acc)]
      simp

/-- Claim C1: with output content type markdown, an outcome with success flag
true, a present markdown object and a non-empty extracted-content field is
normalized to the error result whose message states that the crawler failed
to extract any valid content; the success path for pre-extracted content is
never taken. -/
theorem handle_crawl_result_extracted_content_error
    (settings : Settings) (cr : CrawlResult)
    (hct : settings.content_type = "markdown")
    (hs : cr.success = true)
    (hmd : cr.markdown.isSome = true)
    (hec : strTruthy cr.extracted_content = true) :
    handle_crawl_result settings (.outcome cr) =
      .ok { status := "error",
            error_message :=
              some "The crawler failed to extract any valid content." } := by
  have h1 : ¬ (cr.success = true ∧ settings.content_type = "html") := by
    rw [hct]; simp
  have h2 : cr.success = true ∧ cr.markdown.isSome = true := ⟨hs, hmd⟩
  have h3 : ¬ (cr.extracted_content.getD "" = "" ∧ cr.markdown.isSome = true) := by
    rintro ⟨ha, _⟩
    exact strTruthy_true_getD hec ha
  simp only [handle_crawl_result, handleOutcome]
  rw [if_neg h1, if_pos h2, if_neg h3]

/-- Witness for claim C1 at a concrete outcome carrying both markdown and
extracted content. -/
theorem handle_crawl_result_extracted_content_error_witness :
    ({} : Settings).content_type = "markdown"
    ∧ handle_crawl_result {}
        (.outcome
          { success := true, url := "http://x",
            markdown := some { fit_markdown := some "A", raw_markdown := some "B" },
            extracted_content := some "pre-extracted" }) =
      .ok { status := "error",
            error_message :=
              some "The crawler failed to extract any valid content." } :=
  ⟨rfl, handle_crawl_result_extracted_content_error {}
    { success := true, url := "http://x",
      markdown := some { fit_markdown := some "A", raw_markdown := some "B" },
      extracted_content := some "pre-extracted" }
    rfl rfl rfl (by decide)⟩

/-- Claim C2 counterexample: handle_crawl_result is not total — on a container
holding an empty sequence, the unconditional unwrap of the first element
raises IndexError instead of returning a NormalizedResult. -/
theorem handle_crawl_result_empty_container_raises :
    handle_crawl_result {} (.container []) =
      .error "list index out of range" := rfl

/-- Claim C2 as amended: handle_crawl_result returns exactly one well-formed
NormalizedResult and never raises, for every input that is not an empty
container. -/
theorem handle_crawl_result_total_on_nonempty (settings : Settings)
    (raw : RunManyReturn) (h : raw ≠ .container []) :
    ∃ out, handle_crawl_result settings raw = .ok out
      ∧ isWellFormed out = true := by
  cases raw with
  | outcome r =>
    exact ⟨handleOutcome settings r, rfl, isWellFormed_handleOutcome settings r⟩
  | container rs =>
    cases rs with
    | nil => exact absurd rfl h
    | cons r rest =>
      exact ⟨handleOutcome settings r, rfl, isWellFormed_handleOutcome settings r⟩
  | other t => exact ⟨_, rfl, rfl⟩

/-- Witness for the amended claim C2 at a concrete non-container input. -/
theorem handle_crawl_result_total_on_nonempty_witness :
    (RunManyReturn.other "str" ≠ RunManyReturn.container [])
    ∧ ∃ out, handle_crawl_result {} (.other "str") = .ok out
        ∧ isWellFormed out = true :=
  ⟨by decide, handle_crawl_result_total_on_nonempty {} (.other "str") (by decide)⟩

/-- Claim C3 counterexample: on the html path with a null HTML body, the
normalizer returns a success result whose content is absent, violating the
stated shape invariant. -/
theorem normalized_shape_invariant_fails_on_null_html :
    handle_crawl_result { content_type := "html" }
      (.outcome { success := true, url := "http://x" }) =
      .ok { status := "success", url := some "http://x", content := none }
    ∧ shapeInvariant
        { status := "success", url := some "http://x", content := none } = false :=
  ⟨rfl, by decide⟩

/-- Claim C3 as amended: every NormalizedResult produced by
handle_crawl_result satisfies the weakened shape invariant — on success, url
is present and error message absent, while content may be absent when the
underlying body or markdown variants are null; on error, url and content are
absent and error message is present. -/
theorem normalized_shape_invariant_amended (settings : Settings)
    (raw : RunManyReturn) (out : MCPCrawlResult)
    (h : handle_crawl_result settings raw = .ok out) :
    shapeInvariantAmended out = true := by
  cases raw with
  | outcome r =>
    simp only [handle_crawl_result, Except.ok.injEq] at h
    exact h ▸ shapeInvariantAmended_handleOutcome settings r
  | container rs =>
    cases rs with
    | nil => simp [handle_crawl_result] at h
    | cons r rest =>
      simp only [handle_crawl_result, Except.ok.injEq] at h
      exact h ▸ shapeInvariantAmended_handleOutcome settings r
  | other t =>
    simp only [handle_crawl_result, Except.ok.injEq] at h
    subst h
    rfl

/-- Witness for the amended claim C3 at a concrete failed outcome. -/
theorem normalized_shape_invariant_amended_witness :
    handle_crawl_result {} (.outcome { success := false, url := "http://x" }) =
      .ok { status := "error", error_message := some "Unknown crawl error." }
    ∧ shapeInvariantAmended
        { status := "error", error_message := some "Unknown crawl error." } = true :=
  ⟨rfl, normalized_shape_invariant_amended {}
    (.outcome { success := false, url := "http://x" })
    { status := "error", error_message := some "Unknown crawl error." } rfl⟩

/-- Claim C4: with output content type html, every outcome with success flag
true is normalized to a success result carrying the outcome url and exactly
the raw HTML body as content, with no fallback even when that body is the
empty string or null. -/
theorem handle_crawl_result_html_path (settings : Settings) (cr : CrawlResult)
    (hct : settings.content_type = "html") (hs : cr.success = true) :
    handle_crawl_result settings (.outcome cr) =
      .ok { status := "success", url := some cr.url, content := cr.html } := by
  have h1 : cr.success = true ∧ settings.content_type = "html" := ⟨hs, hct⟩
  simp only [handle_crawl_result, handleOutcome]
  rw [if_pos h1]

/-- Witness for claim C4 at a concrete outcome whose HTML body is the empty
string. -/
theorem handle_crawl_result_html_path_witness :
    ({ content_type := "html" } : Settings).content_type = "html"
    ∧ handle_crawl_result { content_type := "html" }
        (.outcome { success := true, url := "http://x", html := some "" }) =
      .ok { status := "success", url := some "http://x", content := some "" } :=
  ⟨rfl, handle_crawl_result_html_path { content_type := "html" }
    { success := true, url := "http://x", html := some "" } rfl rfl⟩

/-- Claim C5: with output content type markdown, an outcome with success flag
true, empty extracted content and a present markdown object is normalized to
a success result whose content is the fit variant when that variant is
non-empty and otherwise the raw variant. -/
theorem handle_crawl_result_markdown_fallback (settings : Settings)
    (cr : CrawlResult) (md : Markdown)
    (hct : settings.content_type = "markdown")
    (hs : cr.success = true)
    (hmd : cr.markdown = some md)
    (hec : strTruthy cr.extracted_content = false) :
    handle_crawl_result settings (.outcome cr) =
      .ok { status := "success", url := some cr.url,
            content :=
              if strTruthy md.fit_markdown then md.fit_markdown
              else md.raw_markdown } := by
  have h1 : ¬ (cr.success = true ∧ settings.content_type = "html") := by
    rw [hct]; simp
  have h2 : cr.markdown.isSome = true := by rw [hmd]; rfl
  have h3 : cr.success = true ∧ cr.markdown.isSome = true := ⟨hs, h2⟩
  have h4 : cr.extracted_content.getD "" = "" ∧ cr.markdown.isSome = true :=
    ⟨strTruthy_false_getD hec, h2⟩
  simp only [handle_crawl_result, handleOutcome]
  rw [if_neg h1, if_pos h3, if_pos h4, hmd]
  simp [pyOrStr]

/-- Witness for claim C5 at a concrete outcome with an empty fit variant,
falling back to the raw variant. -/
theorem handle_crawl_result_markdown_fallback_witness :
    ({} : Settings).content_type = "markdown"
    ∧ handle_crawl_result {}
        (.outcome
          { success := true, url := "http://x",
            markdown := some { fit_markdown := some "", raw_markdown := some "raw" } }) =
      .ok { status := "success", url := some "http://x", content := some "raw" } :=
  ⟨rfl, handle_crawl_result_markdown_fallback {}
    { success := true, url := "http://x",
      markdown := some { fit_markdown := some "", raw_markdown := some "raw" } }
    { fit_markdown := some "", raw_markdown := some "raw" }
    rfl rfl rfl (by decide)⟩

/-- Claim C6: every outcome with success flag false is normalized to an error
result with url and content absent and with the error message taken from the
outcome when non-empty, else the fixed fallback string. -/
theorem handle_crawl_result_failure_path (settings : Settings)
    (cr : CrawlResult) (hs : cr.success = false) :
    handle_crawl_result settings (.outcome cr) =
      .ok { status := "error", url := none, content := none,
            error_message :=
              some (match cr.error_message with
                | none => "Unknown crawl error."
                | some m => if m = "" then "Unknown crawl error." else m) } := by
  have h1 : ¬ (cr.success = true ∧ settings.content_type = "html") := by
    rw [hs]; simp
  have h2 : ¬ (cr.success = true ∧ cr.markdown.isSome = true) := by
    rw [hs]; simp
  simp only [handle_crawl_result, handleOutcome]
  rw [if_neg h1, if_neg h2]
  rfl

/-- Witness for claim C6 at a concrete failed outcome whose message is the
empty string, yielding the fixed fallback message. -/
theorem handle_crawl_result_failure_path_witness :
    handle_crawl_result {}
      (.outcome { success := false, url := "http://x", error_message := some "" }) =
      .ok { status := "error", url := none, content := none,
            error_message := some "Unknown crawl error." } :=
  handle_crawl_result_failure_path {}
    { success := false, url := "http://x", error_message := some "" } rfl

/-- Claim C7: a container holding a non-empty sequence of outcomes is
normalized exactly as its first element passed directly; in particular a
singleton container behaves identically to the outcome it wraps. -/
theorem handle_crawl_result_container_first (settings : Settings)
    (r : CrawlResult) (rest : List CrawlResult) :
    handle_crawl_result settings (.container (r :: rest)) =
      handle_crawl_result settings (.outcome r) := rfl

/-- Claim C8: when the multi-URL crawl consumes a stream that raises after
yielding elements that each normalize without raising, the operation returns
the already-normalized results unmodified followed by exactly one trailing
error result wrapping the exception message. -/
theorem crawl_stream_exception_preserves_prefix (settings : Settings)
    (items : List RunManyReturn) (rs : List MCPCrawlResult) (m : String)
    (h : items.map (handle_crawl_result settings) = rs.map Except.ok) :
    crawl settings (.stream items (some m)) = rs ++ [crawlErr m] := by
  simp only [crawl]
  rw [consumeStream_append settings crawlErr items rs m h []]
  simp

/-- Witness for claim C8: a stream that raises after one successful yield
produces a list of length two whose first entry is the preserved success
result and whose second is the trailing error. -/
theorem crawl_stream_exception_preserves_prefix_witness :
    ([RunManyReturn.outcome
        { success := true, url := "http://a",
          markdown := some { fit_markdown := some "A" } }].map
      (handle_crawl_result {}) =
      ([{ status := "success", url := some "http://a",
          content := some "A" }] : List MCPCrawlResult).map Except.ok)
    ∧ crawl {}
        (.stream
          [RunManyReturn.outcome
            { success := true, url := "http://a",
              markdown := some { fit_markdown := some "A" } }]
          (some "boom")) =
      [{ status := "success", url := some "http://a", content := some "A" },
       crawlErr "boom"] :=
  ⟨rfl, crawl_stream_exception_preserves_prefix {}
    [RunManyReturn.outcome
      { success := true, url := "http://a",
        markdown := some { fit_markdown := some "A" } }]
    [{ status := "success", url := some "http://a", content := some "A" }]
    "boom" rfl⟩

/-- Claim C9: on every execution path of the deep-crawl entry point — a
raising collaborator call, an early return on a non-iterator value, or
stream consumption with or without a trailing exception — the manually
acquired crawler session is closed exactly once. -/
theorem deep_crawl_closes_session_once (settings : Settings)
    (resp : CrawlerResponse) :
    (deep_crawl settings resp).closeCalls = 1 := rfl

/-- Claim C10, code at the failing input: the transport option accepts exactly
stdio and html with default stdio, yet selecting html runs the server over
stdio, because the dispatch compares against the string http, which is not
an accepted choice — the streamable-http branch is unreachable from the
CLI. -/
theorem main_transport_html_runs_stdio :
    parseTransportOption none = some "stdio"
    ∧ parseTransportOption (some "stdio") = some "stdio"
    ∧ parseTransportOption (some "html") = some "html"
    ∧ parseTransportOption (some "http") = none
    ∧ mainRun "html" = "stdio"
    ∧ mainRun "html" ≠ "streamable-http"
    ∧ mainRun "stdio" = "stdio" := by
  refine ⟨rfl, by decide, by decide, by decide, by decide, by decide, by decide⟩

-- Scratch checks of the embedding against the Python test suite.
example :
    handle_crawl_result {}
      (.outcome
        { success := true, url := "http://test.com",
          markdown := some { fit_markdown := some "Fit markdown content" } }) =
    .ok
      { status := "success", url := some "http://test.com",
        content := some "Fit markdown content" } := by rfl

example :
    handle_crawl_result {}
      (.outcome
        { success := true, url := "http://test.com",
          markdown := some { raw_markdown := some "Raw markdown content" } }) =
    .ok
      { status := "success", url := some "http://test.com",
        content := some "Raw markdown content" } := by rfl

example :
    handle_crawl_result { content_type := "html" }
      (.outcome
        { success := true, url := "http://test.com",
          html := some "<html>Html content</html>" }) =
    .ok
      { status := "success", url := some "http://test.com",
        content := some "<html>Html content</html>" } := by rfl

example :
    handle_crawl_result {}
      (.outcome
        { success := false, url := "http://test.com",
          error_message := some "Page not found" }) =
    .ok { status := "error", error_message := some "Page not found" } := by rfl

example :
    handle_crawl_result {}
      (.outcome { success := false, url := "http://test.com" }) =
    .ok { status := "error", error_message := some "Unknown crawl error." } := by rfl

example :
    handle_crawl_result {} (.other "str") =
    .ok
      { status := "error",
        error_message := some "Unexpected result type from crawler: str" } := by rfl
